import Mathlib

/-!
Verification of the kopf peering engine (lease-based peer coordination)
against its design specification.

The embedding models, from `kopf/engines/peering.py`:
  * `Peer` — the lease record class (`Peer.__init__`, `touch`, `as_dict`,
    `disappear`, `detect`);
  * `statusPatch` — the status-field dict comprehension of `apply_peers`;
  * `peers_handler` — the arbitration reconciler driving the freeze gate;
  * `peers_keepalive` — the heartbeat loop's sleep computation and its
    shielded cleanup on cancellation.

Time is modelled as `Int` seconds on the naive-UTC clock basis that the
code normalises to (`lastseen.replace(tzinfo=None)`); each Python call
that reads the wall clock twice (`__init__`, `touch`) takes two instants
`now1 now2`, with clock monotonicity (`now1 ≤ now2`) as a hypothesis
where a claim needs it.  The process-local freeze toggle
(`kopf.structs.primitives.Toggle`, not part of the sources) is modelled
from the spec as a plain boolean with recorded on/off transition effects.
-/

/-- A JSON-ish value as stored in the peering object's status entries.
`isoTime t` stands for the ISO-8601 rendering of the instant `t`
(`lastseen.isoformat()` in the source). -/
inductive JVal where
  | nullv : JVal
  | str : String → JVal
  | int : Int → JVal
  | isoTime : Int → JVal
deriving DecidableEq, Repr

/-- The lease record: mirrors class `Peer` in `peering.py`.  All fields
are stored attributes, exactly as in `Peer.__init__`: in particular
`deadline` and `is_dead` are computed and stored at construction /
`touch` time, not recomputed on read. -/
structure Peer where
  id : String
  name : String
  ns : Option String
  priority : Int
  lifetime : Int
  lastseen : Int
  deadline : Int
  is_dead : Bool
  legacy : Bool
deriving DecidableEq, Repr

/-- `Peer.__init__`.  Optional arguments model Python keyword defaults
(`priority=0`, `lastseen=None`, `lifetime=60`, `namespace=None`,
`legacy=False`).  `now1` is the `utcnow()` used when `lastseen` is
absent; `now2` is the second `utcnow()` read when `is_dead` is set. -/
def Peer.init (id name : String) (priority : Option Int) (lastseen : Option Int)
    (lifetime : Option Int) (ns : Option String) (legacy : Option Bool)
    (now1 now2 : Int) : Peer :=
  let priority := priority.getD 0
  let lifetime := lifetime.getD 60
  let lastseen := lastseen.getD now1
  let deadline := lastseen + lifetime
  { id := id,
    name := name,
    ns := ns,
    priority := priority,
    lifetime := lifetime,
    lastseen := lastseen,
    deadline := deadline,
    is_dead := decide (deadline ≤ now2),
    legacy := legacy.getD false }

/-- `Peer.touch(lifetime=...)`: sets `lastseen` to the current instant
(`now1`), replaces `lifetime` only when one is given, recomputes
`deadline`, and stores `is_dead` from a second clock read `now2`. -/
def Peer.touch (p : Peer) (lifetime : Option Int) (now1 now2 : Int) : Peer :=
  let lastseen := now1
  let lifetime := lifetime.getD p.lifetime
  let deadline := lastseen + lifetime
  { p with
      lastseen := lastseen,
      lifetime := lifetime,
      deadline := deadline,
      is_dead := decide (deadline ≤ now2) }

/-- `Peer.as_dict()`: the serialized, non-identifying fields of a lease
record, in the order the source dict literal writes them. -/
def Peer.as_dict (p : Peer) : List (String × JVal) :=
  [("namespace", match p.ns with | none => JVal.nullv | some s => JVal.str s),
   ("priority", JVal.int p.priority),
   ("lastseen", JVal.isoTime p.lastseen),
   ("lifetime", JVal.int p.lifetime)]

/-- The spec's reading of `isDead`: `now ≥ lastseen + lifetime`
evaluated at the moment of the read (`now` is the read instant).  This
follows the spec's words, for comparison with the stored `Peer.is_dead`
attribute of the source. -/
def specIsDeadAt (p : Peer) (now : Int) : Bool :=
  decide (p.lastseen + p.lifetime ≤ now)

/-- The value one peer contributes to the status patch of `apply_peers`:
`None` (a tombstone) when dead, its serialized form otherwise. -/
def statusEntry (p : Peer) : Option (List (String × JVal)) :=
  if p.is_dead then none else some p.as_dict

/-- The `status` mapping built by `apply_peers`:
`{peer.id: None if peer.is_dead else peer.as_dict() for peer in peers}`,
modelled as the key-to-value map the dict comprehension produces (later
entries overwrite earlier ones on a duplicate key, as in Python). -/
def statusPatch (peers : List Peer) : String → Option (Option (List (String × JVal))) :=
  peers.foldl
    (fun m peer => fun k => if k = peer.id then some (statusEntry peer) else m k)
    (fun _ => none)

/-- `Peer.disappear()`: `touch(lifetime=0)` followed by a single
`apply_peers([self])` push; returns the touched record and the one
status patch pushed. -/
def Peer.disappear (p : Peer) (now1 now2 : Int) :
    Peer × (String → Option (Option (List (String × JVal)))) :=
  let touched := p.touch (some 0) now1 now2
  (touched, statusPatch [touched])

/-- One existence probe against the shared coordination objects, as
issued by `Peer._is_peering_exist` (modern flavor) or
`Peer._is_peering_legacy` (legacy flavor). -/
inductive Probe where
  | modern : String → Option String → Probe
  | legacyKind : String → Option String → Probe
deriving DecidableEq, Repr

/-- The default peering object name, `PEERING_DEFAULT_NAME = 'default'`. -/
def PEERING_DEFAULT_NAME : String := "default"

/-- Result of `Peer.detect`: the returned optional self lease (or the
raised startup error), the existence probes issued in order, and
whether the standalone-fallback warning was logged. -/
structure DetectOutcome where
  result : Except String (Option Peer)
  probes : List Probe
  warnedFallback : Bool
deriving Repr

/-- `Peer.detect(standalone, namespace, name, **kwargs)`.  The two
probe oracles stand for `Peer._is_peering_exist` and
`Peer._is_peering_legacy` (both read the cluster, out of scope); the
remaining arguments are the `**kwargs` forwarded to `Peer.__init__`. -/
def Peer.detect (standalone : Bool) (ns : Option String) (name : Option String)
    (isPeeringExistent : String → Option String → Bool)
    (isPeeringLegacy : String → Option String → Bool)
    (id : String) (priority : Option Int) (lastseen : Option Int)
    (lifetime : Option Int) (now1 now2 : Int) : DetectOutcome :=
  if standalone then
    { result := Except.ok none, probes := [], warnedFallback := false }
  else
    match name with
    | some n =>
      if isPeeringExistent n ns then
        { result := Except.ok (some (Peer.init id n priority lastseen lifetime ns none now1 now2)),
          probes := [Probe.modern n ns],
          warnedFallback := false }
      else if isPeeringLegacy n ns then
        { result := Except.ok (some (Peer.init id n priority lastseen lifetime ns (some true) now1 now2)),
          probes := [Probe.modern n ns, Probe.legacyKind n ns],
          warnedFallback := false }
      else
        { result := Except.error "The peering was not found",
          probes := [Probe.modern n ns, Probe.legacyKind n ns],
          warnedFallback := false }
    | none =>
      if isPeeringExistent PEERING_DEFAULT_NAME ns then
        { result := Except.ok (some (Peer.init id PEERING_DEFAULT_NAME priority lastseen lifetime ns none now1 now2)),
          probes := [Probe.modern PEERING_DEFAULT_NAME ns],
          warnedFallback := false }
      else if isPeeringLegacy PEERING_DEFAULT_NAME ns then
        { result := Except.ok (some (Peer.init id PEERING_DEFAULT_NAME priority lastseen lifetime ns (some true) now1 now2)),
          probes := [Probe.modern PEERING_DEFAULT_NAME ns, Probe.legacyKind PEERING_DEFAULT_NAME ns],
          warnedFallback := false }
      else
        { result := Except.ok none,
          probes := [Probe.modern PEERING_DEFAULT_NAME ns, Probe.legacyKind PEERING_DEFAULT_NAME ns],
          warnedFallback := true }

/-- The `**opinfo` keyword payload of one status entry, as passed to
`Peer(id=opid, name=name, **opinfo)`; `none` in a field models the
keyword being absent so the `__init__` default applies.  Unknown extra
fields are swallowed by `**_` in the source and not modelled. -/
structure PeerInfo where
  priority : Option Int
  lastseen : Option Int
  lifetime : Option Int
  ns : Option String
  legacy : Option Bool
deriving DecidableEq, Repr

/-- The peering-object body carried by one directory-change event:
`metadata.name`, `metadata.namespace`, and the `status` mapping. -/
structure KopfEvent where
  metaName : Option String
  metaNs : Option String
  status : List (String × PeerInfo)
deriving DecidableEq, Repr

/-- `peers = [Peer(id=opid, name=name, **opinfo) for opid, opinfo in pairs]`:
every status entry parsed afresh into a lease record, id = map key. -/
def parsePeers (name : String) (status : List (String × PeerInfo)) (now1 now2 : Int) :
    List Peer :=
  status.map fun kv =>
    Peer.init kv.1 name kv.2.priority kv.2.lastseen kv.2.lifetime kv.2.ns kv.2.legacy now1 now2

/-- `dead_peers = [peer for peer in peers if peer.is_dead]`. -/
def deadPeersOf (peers : List Peer) : List Peer :=
  peers.filter fun peer => peer.is_dead

/-- `prio_peers`: the alive peers with strictly higher priority than
ourselves. -/
def prioPeersOf (ourselves : Peer) (peers : List Peer) : List Peer :=
  peers.filter fun peer =>
    !peer.is_dead && decide (peer.priority > ourselves.priority)

/-- `same_peers`: the alive peers, other than ourselves, with the same
priority as ourselves. -/
def samePeersOf (ourselves : Peer) (peers : List Peer) : List Peer :=
  peers.filter fun peer =>
    !peer.is_dead && decide (peer.priority = ourselves.priority)
      && decide (peer.id ≠ ourselves.id)

/-- Everything observable from one `peers_handler` invocation.
Modelled from the spec: the freeze toggle
(`kopf.structs.primitives.Toggle`, whose source is not in the
repository snapshot) is a process-local boolean signal; `gate` is its
final value, and `gateEffects` records the `turn_on` (`true`) /
`turn_off` (`false`) calls made.  `pruneCalls` records the peer lists
handed to `apply_peers` for auto-pruning; `conflictWarning` carries the
same-priority peers named in the conflict warning; `raised` is whether
an exception escaped to the caller. -/
structure HandlerOutcome where
  matched : Bool
  gate : Bool
  gateEffects : List Bool
  pruneCalls : List (List Peer)
  conflictWarning : Option (List Peer)
  raised : Bool
deriving DecidableEq, Repr

/-- `peers_handler(event=..., freeze_mode=..., ourselves=..., autoclean=...)`.
`freezeOn` is the toggle's state on entry.  `pruneOk` models the
outcome of the auto-pruning `apply_peers` write: `false` means the
underlying patch call raised, and the exception propagates (there is no
try/except around it in the source). -/
def peers_handler (event : KopfEvent) (freezeOn : Bool) (ourselves : Peer)
    (autoclean : Bool) (pruneOk : Bool) (now1 now2 : Int) : HandlerOutcome :=
  match event.metaName with
  | none =>
    { matched := false, gate := freezeOn, gateEffects := [],
      pruneCalls := [], conflictWarning := none, raised := false }
  | some name =>
    if event.metaNs ≠ ourselves.ns ∨ name ≠ ourselves.name then
      { matched := false, gate := freezeOn, gateEffects := [],
        pruneCalls := [], conflictWarning := none, raised := false }
    else
      let peers := parsePeers name event.status now1 now2
      let dead_peers := deadPeersOf peers
      let prio_peers := prioPeersOf ourselves peers
      let same_peers := samePeersOf ourselves peers
      let pruneCalls := if autoclean && !dead_peers.isEmpty then [dead_peers] else []
      if autoclean && !dead_peers.isEmpty && !pruneOk then
        { matched := true, gate := freezeOn, gateEffects := [],
          pruneCalls := pruneCalls, conflictWarning := none, raised := true }
      else if !prio_peers.isEmpty then
        if !freezeOn then
          { matched := true, gate := true, gateEffects := [true],
            pruneCalls := pruneCalls, conflictWarning := none, raised := false }
        else
          { matched := true, gate := freezeOn, gateEffects := [],
            pruneCalls := pruneCalls, conflictWarning := none, raised := false }
      else if !same_peers.isEmpty then
        { matched := true, gate := true, gateEffects := [true],
          pruneCalls := pruneCalls, conflictWarning := some same_peers, raised := false }
      else if freezeOn then
        { matched := true, gate := false, gateEffects := [false],
          pruneCalls := pruneCalls, conflictWarning := none, raised := false }
      else
        { matched := true, gate := freezeOn, gateEffects := [],
          pruneCalls := pruneCalls, conflictWarning := none, raised := false }

/-- The sleep issued at the end of each heartbeat cycle:
`asyncio.sleep(max(1, int(ourselves.lifetime.total_seconds() - 10)))`. -/
def keepaliveSleepSeconds (lifetimeSeconds : Int) : Int :=
  max 1 (lifetimeSeconds - 10)

/-- One cycle of the `peers_keepalive` loop body: `self.touch()` (no
lifetime argument), one `apply_peers([self])` push, then the sleep.
Returns the renewed record, the pushed status patch, and the sleep
duration in seconds. -/
def peersKeepaliveCycle (ourselves : Peer) (now1 now2 : Int) :
    Peer × (String → Option (Option (List (String × JVal)))) × Int :=
  let touched := ourselves.touch none now1 now2
  (touched, statusPatch [touched], keepaliveSleepSeconds touched.lifetime)

/-- How the shielded `disappear()` in the `finally` block of
`peers_keepalive` ends.  Modelled from the spec: the asyncio runtime is
outside the sources, so the three ways the awaited cleanup can end are
an input: it completes (the triggering cancellation cannot abort it —
it is wrapped in `asyncio.shield`), a second independent cancellation
aborts the await (`asyncio.CancelledError`), or it fails with an
ordinary exception. -/
inductive CleanupEnd where
  | completed : CleanupEnd
  | secondCancellation : CleanupEnd
  | failed : CleanupEnd
deriving DecidableEq, Repr

/-- Result of the `finally` block of `peers_keepalive`: the effect of
the one `disappear()` deregistration when it completed, whether an
exception was logged (`logger.exception`), and whether anything was
raised to the caller. -/
structure CleanupOutcome where
  disappearEffect : Option (Peer × (String → Option (Option (List (String × JVal)))))
  logged : Bool
  raised : Bool

/-- The `finally` block of `peers_keepalive`:
`await asyncio.shield(ourselves.disappear())` with
`except asyncio.CancelledError: pass` and
`except Exception: logger.exception(...)`. -/
def peersKeepaliveCleanup (ourselves : Peer) (endKind : CleanupEnd) (now1 now2 : Int) :
    CleanupOutcome :=
  match endKind with
  | CleanupEnd.completed =>
    { disappearEffect := some (ourselves.disappear now1 now2), logged := false, raised := false }
  | CleanupEnd.secondCancellation =>
    { disappearEffect := none, logged := false, raised := false }
  | CleanupEnd.failed =>
    { disappearEffect := none, logged := true, raised := false }

/-- Claim C2, counterexample.  A record parsed at instant 5 with
`lastseen = 0`, `lifetime = 10` stores `is_dead = false`; a read of the
`is_dead` attribute at instant 20 still returns that stored `false`,
while the spec's `now ≥ lastseen + lifetime`, evaluated at the moment
of that read, is `true`.  So `is_dead` is a cached attribute, not
recomputed per read. -/
theorem is_dead_read_counterexample :
    (Peer.init "a" "default" none (some 0) (some 10) none none 5 5).is_dead = false
    ∧ specIsDeadAt (Peer.init "a" "default" none (some 0) (some 10) none none 5 5) 20
        = true := by
  constructor <;> rfl

/-- Claim C2, amended: `is_dead` equals `now ≥ lastseen + lifetime`
evaluated at the moment it is stored — the second clock read of the
`Peer.__init__` or `touch` call that set it — and every later read
returns that stored value unchanged. -/
theorem is_dead_stored_at_mutation (id name : String)
    (priority lastseen lifetime : Option Int) (ns : Option String)
    (legacy : Option Bool) (p : Peer) (lt : Option Int) (t1 t2 : Int) :
    (Peer.init id name priority lastseen lifetime ns legacy t1 t2).is_dead
      = specIsDeadAt (Peer.init id name priority lastseen lifetime ns legacy t1 t2) t2
    ∧ (p.touch lt t1 t2).is_dead = specIsDeadAt (p.touch lt t1 t2) t2 :=
  ⟨rfl, rfl⟩

/-- Claim C6: serializing a lease record emits exactly the four
non-identifying fields — `namespace` (string or null), `priority`
(integer), `lastseen` (ISO-8601 string), `lifetime` (integer
seconds) — and neither the record's `id` nor its `name` appears in the
serialized value. -/
theorem as_dict_fields (p : Peer) :
    (p.as_dict).map Prod.fst = ["namespace", "priority", "lastseen", "lifetime"]
    ∧ List.lookup "id" p.as_dict = none
    ∧ List.lookup "name" p.as_dict = none
    ∧ List.lookup "namespace" p.as_dict
        = some (match p.ns with | none => JVal.nullv | some s => JVal.str s)
    ∧ List.lookup "priority" p.as_dict = some (JVal.int p.priority)
    ∧ List.lookup "lastseen" p.as_dict = some (JVal.isoTime p.lastseen)
    ∧ List.lookup "lifetime" p.as_dict = some (JVal.int p.lifetime) :=
  ⟨rfl, rfl, rfl, rfl, rfl, rfl, rfl⟩

/-- Claim C7: `touch(lifetime=0)` sets `lastseen` to the current
instant, sets `lifetime` to zero so `deadline` equals `lastseen`, and
makes `is_dead` true the moment the call completes (the clock having
advanced monotonically, `t1 ≤ t2`, between the call's two reads). -/
theorem touch_zero_expires (p : Peer) (t1 t2 : Int) (h : t1 ≤ t2) :
    (p.touch (some 0) t1 t2).lastseen = t1
    ∧ (p.touch (some 0) t1 t2).lifetime = 0
    ∧ (p.touch (some 0) t1 t2).deadline = (p.touch (some 0) t1 t2).lastseen
    ∧ (p.touch (some 0) t1 t2).is_dead = true := by
  refine ⟨rfl, rfl, by simp [Peer.touch], ?_⟩
  simp only [Peer.touch, Option.getD_some, decide_eq_true_eq]
  omega

/-- Witness for `touch_zero_expires` at a concrete record and instants. -/
theorem touch_zero_expires_witness :
    (0 : Int) ≤ 1
    ∧ (((Peer.init "a" "x" none none none none none 0 0).touch (some 0) 0 1).lastseen = 0
       ∧ ((Peer.init "a" "x" none none none none none 0 0).touch (some 0) 0 1).lifetime = 0
       ∧ ((Peer.init "a" "x" none none none none none 0 0).touch (some 0) 0 1).deadline
           = ((Peer.init "a" "x" none none none none none 0 0).touch (some 0) 0 1).lastseen
       ∧ ((Peer.init "a" "x" none none none none none 0 0).touch (some 0) 0 1).is_dead = true) :=
  ⟨by decide, touch_zero_expires (Peer.init "a" "x" none none none none none 0 0) 0 1 (by decide)⟩

/-- Claim C8: each heartbeat cycle, after renewing and pushing self's
record, sleeps exactly `max(1, lifetime_seconds - 10)` seconds; the
duration is never below 1 second, and is exactly 1 second whenever the
configured lifetime is 10 seconds or less. -/
theorem keepalive_sleep_floor (p : Peer) (t1 t2 : Int) :
    (peersKeepaliveCycle p t1 t2).2.2 = max 1 (p.lifetime - 10)
    ∧ 1 ≤ (peersKeepaliveCycle p t1 t2).2.2
    ∧ (p.lifetime ≤ 10 → (peersKeepaliveCycle p t1 t2).2.2 = 1) := by
  refine ⟨rfl, le_max_left 1 (p.lifetime - 10), fun h => ?_⟩
  show max 1 (p.lifetime - 10) = 1
  omega

/-- Witness for `keepalive_sleep_floor`: a misconfigured 5-second
lifetime still sleeps a full second. -/
theorem keepalive_sleep_floor_witness :
    (Peer.init "a" "x" none none (some 5) none none 0 0).lifetime ≤ 10
    ∧ (peersKeepaliveCycle (Peer.init "a" "x" none none (some 5) none none 0 0) 0 0).2.2 = 1 :=
  ⟨by decide,
   (keepalive_sleep_floor (Peer.init "a" "x" none none (some 5) none none 0 0) 0 0).2.2
     (by decide)⟩

/-- Claim C3: the heartbeat loop's cancellation cleanup never raises to
the caller; when the shielded `disappear()` completes it is exactly one
deregistration — `touch(lifetime=0)` followed by one status-patch
push; a second independent cancellation abandons it silently; any other
failure is logged only. -/
theorem keepalive_cleanup_discipline (p : Peer) (endKind : CleanupEnd) (t1 t2 : Int) :
    (peersKeepaliveCleanup p endKind t1 t2).raised = false
    ∧ (endKind = CleanupEnd.completed →
        (peersKeepaliveCleanup p endKind t1 t2).disappearEffect = some (p.disappear t1 t2)
        ∧ (p.disappear t1 t2).1 = p.touch (some 0) t1 t2
        ∧ (p.disappear t1 t2).1.lifetime = 0
        ∧ (p.disappear t1 t2).2 = statusPatch [(p.disappear t1 t2).1])
    ∧ (endKind = CleanupEnd.secondCancellation →
        (peersKeepaliveCleanup p endKind t1 t2).disappearEffect = none
        ∧ (peersKeepaliveCleanup p endKind t1 t2).logged = false)
    ∧ (endKind = CleanupEnd.failed →
        (peersKeepaliveCleanup p endKind t1 t2).disappearEffect = none
        ∧ (peersKeepaliveCleanup p endKind t1 t2).logged = true) := by
  cases endKind <;>
    simp [peersKeepaliveCleanup, Peer.disappear, Peer.touch]

/-- Witness for `keepalive_cleanup_discipline` at a concrete record:
completed cleanup yields the `lifetime = 0` deregistration; a cleanup
failure is logged, not raised. -/
theorem keepalive_cleanup_discipline_witness :
    ((peersKeepaliveCleanup (Peer.init "a" "x" none none none none none 0 0)
        CleanupEnd.completed 3 4).raised = false
     ∧ ((Peer.init "a" "x" none none none none none 0 0).disappear 3 4).1.lifetime = 0)
    ∧ ((peersKeepaliveCleanup (Peer.init "a" "x" none none none none none 0 0)
        CleanupEnd.failed 3 4).disappearEffect = none
       ∧ (peersKeepaliveCleanup (Peer.init "a" "x" none none none none none 0 0)
        CleanupEnd.failed 3 4).logged = true) :=
  ⟨⟨(keepalive_cleanup_discipline (Peer.init "a" "x" none none none none none 0 0)
      CleanupEnd.completed 3 4).1,
    ((keepalive_cleanup_discipline (Peer.init "a" "x" none none none none none 0 0)
      CleanupEnd.completed 3 4).2.1 rfl).2.2.1⟩,
   (keepalive_cleanup_discipline (Peer.init "a" "x" none none none none none 0 0)
      CleanupEnd.failed 3 4).2.2.2 rfl⟩

/-- A key never written by the `statusPatch` fold keeps its value from
the initial map. -/
theorem statusPatch_foldl_not_written (peers : List Peer)
    (m : String → Option (Option (List (String × JVal)))) (k : String)
    (h : k ∉ peers.map Peer.id) :
    peers.foldl
      (fun m peer => fun k => if k = peer.id then some (statusEntry peer) else m k)
      m k
      = m k := by
  induction peers generalizing m with
  | nil => rfl
  | cons q rest ih =>
    simp only [List.map_cons, List.mem_cons, not_or] at h
    simp only [List.foldl_cons]
    rw [ih _ h.2]
    simp [h.1]

/-- With pairwise-distinct ids, the `statusPatch` fold maps each peer's
id to that peer's entry. -/
theorem statusPatch_foldl_written (peers : List Peer)
    (m : String → Option (Option (List (String × JVal)))) (p : Peer)
    (hp : p ∈ peers) (hnd : (peers.map Peer.id).Nodup) :
    peers.foldl
      (fun m peer => fun k => if k = peer.id then some (statusEntry peer) else m k)
      m p.id
      = some (statusEntry p) := by
  induction peers generalizing m with
  | nil => cases hp
  | cons q rest ih =>
    simp only [List.map_cons, List.nodup_cons] at hnd
    simp only [List.foldl_cons]
    rcases List.mem_cons.mp hp with h | h
    · subst h
      rw [statusPatch_foldl_not_written rest _ p.id hnd.1]
      simp
    · exact ih _ h hnd.2

/-- Claim C5: for a collection of lease records (with their ids
pairwise distinct, as peer ids are), the `apply_peers` status mapping
binds exactly each record's id — to a null tombstone when that record
is dead and to its serialized form otherwise — and binds no other
key. -/
theorem apply_peers_status_patch (peers : List Peer)
    (hnd : (peers.map Peer.id).Nodup) :
    (∀ p ∈ peers,
        statusPatch peers p.id = some (if p.is_dead then none else some p.as_dict))
    ∧ (∀ k, k ∉ peers.map Peer.id → statusPatch peers k = none) := by
  constructor
  · intro p hp
    have h := statusPatch_foldl_written peers (fun _ => none) p hp hnd
    simpa [statusPatch, statusEntry] using h
  · intro k hk
    exact statusPatch_foldl_not_written peers (fun _ => none) k hk

/-- A concrete dead record (deadline 10, clock at 100) for the
`apply_peers` witness. -/
def witnessDeadPeer : Peer :=
  Peer.init "d" "default" none (some 0) (some 10) none none 100 100

/-- A concrete alive record (deadline 155, clock at 100) for the
`apply_peers` witness. -/
def witnessAlivePeer : Peer :=
  Peer.init "a" "default" none (some 95) (some 60) none none 100 100

/-- Witness for `apply_peers_status_patch`: one dead and one alive
record give a tombstone at the dead id, the serialized record at the
alive id, and nothing at any other key. -/
theorem apply_peers_status_patch_witness :
    (([witnessDeadPeer, witnessAlivePeer].map Peer.id).Nodup)
    ∧ statusPatch [witnessDeadPeer, witnessAlivePeer] witnessDeadPeer.id
        = some (if witnessDeadPeer.is_dead then none else some witnessDeadPeer.as_dict)
    ∧ statusPatch [witnessDeadPeer, witnessAlivePeer] witnessAlivePeer.id
        = some (if witnessAlivePeer.is_dead then none else some witnessAlivePeer.as_dict)
    ∧ statusPatch [witnessDeadPeer, witnessAlivePeer] "z" = none :=
  ⟨by decide,
   (apply_peers_status_patch [witnessDeadPeer, witnessAlivePeer] (by decide)).1
     witnessDeadPeer (by decide),
   (apply_peers_status_patch [witnessDeadPeer, witnessAlivePeer] (by decide)).1
     witnessAlivePeer (by decide),
   (apply_peers_status_patch [witnessDeadPeer, witnessAlivePeer] (by decide)).2
     "z" (by decide)⟩

/-- On an event whose name and namespace match ours, `peers_handler`
runs its full body (unfolding helper, shared by the reconciler
claims). -/
theorem peers_handler_matched (status : List (String × PeerInfo)) (freezeOn : Bool)
    (ourselves : Peer) (autoclean pruneOk : Bool) (now1 now2 : Int) :
    peers_handler ⟨some ourselves.name, ourselves.ns, status⟩ freezeOn ourselves
        autoclean pruneOk now1 now2
    = (let peers := parsePeers ourselves.name status now1 now2
       let dead_peers := deadPeersOf peers
       let prio_peers := prioPeersOf ourselves peers
       let same_peers := samePeersOf ourselves peers
       let pruneCalls := if autoclean && !dead_peers.isEmpty then [dead_peers] else []
       if autoclean && !dead_peers.isEmpty && !pruneOk then
         { matched := true, gate := freezeOn, gateEffects := [],
           pruneCalls := pruneCalls, conflictWarning := none, raised := true }
       else if !prio_peers.isEmpty then
         if !freezeOn then
           { matched := true, gate := true, gateEffects := [true],
             pruneCalls := pruneCalls, conflictWarning := none, raised := false }
         else
           { matched := true, gate := freezeOn, gateEffects := [],
             pruneCalls := pruneCalls, conflictWarning := none, raised := false }
       else if !same_peers.isEmpty then
         { matched := true, gate := true, gateEffects := [true],
           pruneCalls := pruneCalls, conflictWarning := some same_peers, raised := false }
       else if freezeOn then
         { matched := true, gate := false, gateEffects := [false],
           pruneCalls := pruneCalls, conflictWarning := none, raised := false }
       else
         { matched := true, gate := freezeOn, gateEffects := [],
           pruneCalls := pruneCalls, conflictWarning := none, raised := false }) := by
  simp [peers_handler]

/-- Claim C1: for every matching directory-change event, the reconciler
parses all status entries fresh and takes exactly one decision, in
order: some alive peer with strictly higher priority → turn the gate on
only if it is off; otherwise some alive same-priority peer with another
id → turn the gate on unconditionally and emit the conflict warning
naming those peers; otherwise → turn the gate off only if it is on. -/
theorem peers_handler_decision_tree
    (event : KopfEvent) (freezeOn : Bool) (ourselves : Peer)
    (autoclean pruneOk : Bool) (now1 now2 : Int)
    (hname : event.metaName = some ourselves.name)
    (hns : event.metaNs = ourselves.ns)
    (hprune : pruneOk = true) :
    let peers := parsePeers ourselves.name event.status now1 now2
    let higherAlive := prioPeersOf ourselves peers
    let sameAlive := samePeersOf ourselves peers
    let out := peers_handler event freezeOn ourselves autoclean pruneOk now1 now2
    out.matched = true
    ∧ out.raised = false
    ∧ (higherAlive ≠ [] →
        out.gate = true
        ∧ out.gateEffects = (if freezeOn then [] else [true])
        ∧ out.conflictWarning = none)
    ∧ (higherAlive = [] → sameAlive ≠ [] →
        out.gate = true ∧ out.gateEffects = [true]
        ∧ out.conflictWarning = some sameAlive)
    ∧ (higherAlive = [] → sameAlive = [] →
        out.gate = false
        ∧ out.gateEffects = (if freezeOn then [false] else [])
        ∧ out.conflictWarning = none) := by
  obtain ⟨mn, mns, status⟩ := event
  obtain rfl : mn = some ourselves.name := hname
  obtain rfl : mns = ourselves.ns := hns
  subst hprune
  by_cases hp : prioPeersOf ourselves (parsePeers ourselves.name status now1 now2) = [] <;>
    by_cases hs : samePeersOf ourselves (parsePeers ourselves.name status now1 now2) = [] <;>
      cases freezeOn <;>
        simp [peers_handler_matched, hp, hs]

/-- Self lease used by the reconciler witnesses: id "A", priority 5. -/
def selfPeerA : Peer := Peer.init "A" "default" (some 5) (some 0) (some 60) none none 0 0

/-- A matching event whose snapshot holds self (priority 5, alive) and
a higher-priority alive peer "B" (priority 10). -/
def eventWithHigherPeer : KopfEvent :=
  ⟨some "default", none,
   [("A", ⟨some 5, some 0, some 60, none, none⟩),
    ("B", ⟨some 10, some 0, some 60, none, none⟩)]⟩

/-- Witness for `peers_handler_decision_tree`: self at priority 5 sees
an alive priority-10 peer and turns the gate on from off. -/
theorem peers_handler_decision_tree_witness :
    prioPeersOf selfPeerA (parsePeers selfPeerA.name eventWithHigherPeer.status 0 0) ≠ []
    ∧ ((peers_handler eventWithHigherPeer false selfPeerA true true 0 0).gate = true
       ∧ (peers_handler eventWithHigherPeer false selfPeerA true true 0 0).gateEffects
           = (if (false : Bool) then [] else [true])
       ∧ (peers_handler eventWithHigherPeer false selfPeerA true true 0 0).conflictWarning
           = none) :=
  ⟨by decide,
   (peers_handler_decision_tree eventWithHigherPeer false selfPeerA true true 0 0
      rfl rfl rfl).2.2.1 (by decide)⟩

/-- Claim C9: on a matching event with auto-pruning enabled and at
least one dead record, the reconciler hands exactly the dead records to
one synchronizer removal call; if that write fails, the failure
propagates (`raised`), and no freeze-gate transition is made — the
gate keeps its prior state. -/
theorem peers_handler_prune_error_propagates
    (event : KopfEvent) (freezeOn : Bool) (ourselves : Peer)
    (autoclean pruneOk : Bool) (now1 now2 : Int)
    (hname : event.metaName = some ourselves.name)
    (hns : event.metaNs = ourselves.ns)
    (hauto : autoclean = true)
    (hdead : deadPeersOf (parsePeers ourselves.name event.status now1 now2) ≠ []) :
    let out := peers_handler event freezeOn ourselves autoclean pruneOk now1 now2
    out.pruneCalls = [deadPeersOf (parsePeers ourselves.name event.status now1 now2)]
    ∧ (pruneOk = false →
        out.raised = true
        ∧ out.gate = freezeOn
        ∧ out.gateEffects = []
        ∧ out.conflictWarning = none) := by
  obtain ⟨mn, mns, status⟩ := event
  obtain rfl : mn = some ourselves.name := hname
  obtain rfl : mns = ourselves.ns := hns
  subst hauto
  cases pruneOk <;>
    by_cases hp : prioPeersOf ourselves (parsePeers ourselves.name status now1 now2) = [] <;>
      by_cases hs : samePeersOf ourselves (parsePeers ourselves.name status now1 now2) = [] <;>
        cases freezeOn <;>
          simp [peers_handler_matched, hp, hs, hdead]

/-- A matching event whose snapshot holds self (alive) and one dead
peer "D" (deadline 10, clock at 100). -/
def eventWithDeadPeer : KopfEvent :=
  ⟨some "default", none,
   [("A", ⟨some 5, some 95, some 60, none, none⟩),
    ("D", ⟨some 5, some 0, some 10, none, none⟩)]⟩

/-- Witness for `peers_handler_prune_error_propagates`: a failed
pruning write raises and leaves the gate in its prior (on) state with
no transitions. -/
theorem peers_handler_prune_error_propagates_witness :
    deadPeersOf (parsePeers selfPeerA.name eventWithDeadPeer.status 100 100) ≠ []
    ∧ (peers_handler eventWithDeadPeer true selfPeerA true false 100 100).pruneCalls
        = [deadPeersOf (parsePeers selfPeerA.name eventWithDeadPeer.status 100 100)]
    ∧ (peers_handler eventWithDeadPeer true selfPeerA true false 100 100).raised = true
    ∧ (peers_handler eventWithDeadPeer true selfPeerA true false 100 100).gate = true
    ∧ (peers_handler eventWithDeadPeer true selfPeerA true false 100 100).gateEffects = []
    ∧ (peers_handler eventWithDeadPeer true selfPeerA true false 100 100).conflictWarning
        = none := by
  have T := peers_handler_prune_error_propagates eventWithDeadPeer true selfPeerA true false
    100 100 rfl rfl rfl (by decide)
  exact ⟨by decide, T.1, (T.2 rfl).1, (T.2 rfl).2.1, (T.2 rfl).2.2.1, (T.2 rfl).2.2.2⟩

/-- Claim C10: a matching event whose snapshot contains only self's own
entry — same id, same priority, not dead — reaches the final branch:
the entry lands in neither alive partition and the gate ends off. -/
theorem peers_handler_self_only_gate_off
    (event : KopfEvent) (freezeOn : Bool) (ourselves : Peer)
    (autoclean pruneOk : Bool) (now1 now2 : Int) (info : PeerInfo)
    (hname : event.metaName = some ourselves.name)
    (hns : event.metaNs = ourselves.ns)
    (hstatus : event.status = [(ourselves.id, info)])
    (hpr : (Peer.init ourselves.id ourselves.name info.priority info.lastseen
        info.lifetime info.ns info.legacy now1 now2).priority = ourselves.priority)
    (halive : (Peer.init ourselves.id ourselves.name info.priority info.lastseen
        info.lifetime info.ns info.legacy now1 now2).is_dead = false) :
    (peers_handler event freezeOn ourselves autoclean pruneOk now1 now2).gate = false
    ∧ (peers_handler event freezeOn ourselves autoclean pruneOk now1 now2).gateEffects
        = (if freezeOn then [false] else [])
    ∧ (peers_handler event freezeOn ourselves autoclean pruneOk now1 now2).conflictWarning
        = none := by
  obtain ⟨mn, mns, status⟩ := event
  obtain rfl : mn = some ourselves.name := hname
  obtain rfl : mns = ourselves.ns := hns
  obtain rfl : status = [(ourselves.id, info)] := hstatus
  have hid : (Peer.init ourselves.id ourselves.name info.priority info.lastseen
      info.lifetime info.ns info.legacy now1 now2).id = ourselves.id := rfl
  cases freezeOn <;>
    simp [peers_handler_matched, parsePeers, deadPeersOf, prioPeersOf, samePeersOf,
      halive, hpr, hid, List.filter]

/-- A matching event whose snapshot holds only self's own alive entry. -/
def eventSelfOnly : KopfEvent :=
  ⟨some "default", none, [("A", ⟨some 5, some 0, some 60, none, none⟩)]⟩

/-- Witness for `peers_handler_self_only_gate_off`: with only self in
the snapshot, a previously-on gate ends off. -/
theorem peers_handler_self_only_gate_off_witness :
    (peers_handler eventSelfOnly true selfPeerA true true 0 0).gate = false
    ∧ (peers_handler eventSelfOnly true selfPeerA true true 0 0).gateEffects
        = (if (true : Bool) then [false] else [])
    ∧ (peers_handler eventSelfOnly true selfPeerA true true 0 0).conflictWarning = none :=
  peers_handler_self_only_gate_off eventSelfOnly true selfPeerA true true 0 0
    ⟨some 5, some 0, some 60, none, none⟩ rfl rfl rfl (by decide) (by decide)

/-- Claim C4: target resolution honours all three branches of the
decision tree — standalone gives no self lease and issues no existence
probe; an explicit name found in neither flavor fails startup; a
missing default-named object of both flavors degrades to standalone
with a warning instead of failing. -/
theorem peer_detect_decision_tree
    (standalone : Bool) (ns : Option String) (name : Option String)
    (isPeeringExistent isPeeringLegacy : String → Option String → Bool)
    (id : String) (priority lastseen lifetime : Option Int) (now1 now2 : Int) :
    (standalone = true →
        (Peer.detect standalone ns name isPeeringExistent isPeeringLegacy id priority
            lastseen lifetime now1 now2).result = Except.ok none
        ∧ (Peer.detect standalone ns name isPeeringExistent isPeeringLegacy id priority
            lastseen lifetime now1 now2).probes = [])
    ∧ (standalone = false → ∀ n, name = some n →
        isPeeringExistent n ns = false → isPeeringLegacy n ns = false →
        (Peer.detect standalone ns name isPeeringExistent isPeeringLegacy id priority
            lastseen lifetime now1 now2).result
          = Except.error "The peering was not found")
    ∧ (standalone = false → name = none →
        isPeeringExistent PEERING_DEFAULT_NAME ns = false →
        isPeeringLegacy PEERING_DEFAULT_NAME ns = false →
        (Peer.detect standalone ns name isPeeringExistent isPeeringLegacy id priority
            lastseen lifetime now1 now2).result = Except.ok none
        ∧ (Peer.detect standalone ns name isPeeringExistent isPeeringLegacy id priority
            lastseen lifetime now1 now2).warnedFallback = true) := by
  refine ⟨fun h => ?_, fun h n hn hm hl => ?_, fun h hn hm hl => ?_⟩
  · subst h; simp [Peer.detect]
  · subst h; subst hn; simp [Peer.detect, hm, hl]
  · subst h; subst hn; simp [Peer.detect, hm, hl]

/-- A probe oracle under which no peering object of either flavor
exists. -/
def noPeeringObject : String → Option String → Bool := fun _ _ => false

/-- Witness for `peer_detect_decision_tree` on all three branches. -/
theorem peer_detect_decision_tree_witness :
    ((Peer.detect true none none noPeeringObject noPeeringObject "A" none none none 0 0).result
        = Except.ok none
     ∧ (Peer.detect true none none noPeeringObject noPeeringObject "A" none none none 0 0).probes
        = [])
    ∧ (Peer.detect false none (some "x") noPeeringObject noPeeringObject "A" none none none
        0 0).result = Except.error "The peering was not found"
    ∧ ((Peer.detect false none none noPeeringObject noPeeringObject "A" none none none
        0 0).result = Except.ok none
       ∧ (Peer.detect false none none noPeeringObject noPeeringObject "A" none none none
        0 0).warnedFallback = true) :=
  ⟨(peer_detect_decision_tree true none none noPeeringObject noPeeringObject "A"
      none none none 0 0).1 rfl,
   (peer_detect_decision_tree false none (some "x") noPeeringObject noPeeringObject "A"
      none none none 0 0).2.1 rfl "x" rfl rfl rfl,
   (peer_detect_decision_tree false none none noPeeringObject noPeeringObject "A"
      none none none 0 0).2.2 rfl rfl rfl rfl⟩
